import Mathlib

/-!
Verification of the dynamic-value runtime in `util.go` of the `validate`
repository.

The Go code works on `interface{}` values and `reflect.Value` handles. The
shallow embedding below represents a concrete runtime value as the inductive
type `GoValue`: each constructor stands for the family of Go types sharing a
reflect base kind, carrying the value as read by the corresponding
`reflect.Value` accessor (`Value.Int()` sign-extends every signed width to
int64, `Value.Uint()` widens every unsigned width to uint64, so a single
payload per family is faithful).  Machine integers are modelled as `Int`/`Nat`
with explicit `% 2^64` at the points where the Go code converts between
signed and unsigned 64-bit representations.  Go `float64`/`float32` values
are modelled as exact rationals (`Rat`); the operations exercised here are
order comparisons and truncating conversions, which agree with IEEE semantics
on the exactly representable values used in the theorems (NaN and signed
zero do not arise).  Fallible operations return `Except`; functions whose
only failure mode in Go is a panic return `Except GoPanicMsg`.
-/

namespace Validate

/-- The subset of `reflect.Kind` that the modelled code distinguishes.  The
source lists each integer width separately (`reflect.Int` … `reflect.Int64`,
`reflect.Uint` … `reflect.Uintptr`, `reflect.Float32`/`Float64`,
`reflect.Complex64`/`Complex128`); since every function in `util.go` treats
the widths of one family identically (it reads them through the widening
accessors), each family is represented by a single kind here. -/
inductive RKind where
  | invalid
  | bool
  | int
  | uint
  | float
  | complex
  | string
  | slice
  | array
  | map
  | chan
  | ptr
  | iface
  | func
  | struct
deriving DecidableEq, Repr

/-- The closed base-kind enum `kind` of `util.go` (lines 479-490), with the
constant names of the source (`invalidKind`, `boolKind`, …). -/
inductive BasicKind where
  | invalidKind
  | boolKind
  | complexKind
  | intKind
  | floatKind
  | stringKind
  | uintKind
deriving DecidableEq, Repr

/-- The recoverable error values of `util.go`: `ErrConvertFail` (line 149)
and `errBadComparisonType` (line 474). -/
inductive GoErr where
  | convertFail
  | badComparisonType
deriving DecidableEq, Repr

/-- The fatal aborts of the modelled code: the `panicf` calls of
`checkValidatorFunc`/`checkFilterFunc`/`CallByValue`, and the Go runtime
panic raised by `reflect.Value.Type()` on the zero `Value` (which
`includeElement` can hit).  An `Except GoPanicMsg` error in this development
always models a Go panic, never a returned error value. -/
inductive GoPanicMsg where
  | invalidName
  | notFunc
  | noParams
  | badReturnType
  | notFuncCall
  | typeOnZeroValue
deriving DecidableEq, Repr

/-- A Go type as far as the signature checks inspect it: its reflect kind and
whether it is identically the `error` interface type (the source compares
`typ.Out(1) == errorType`, a type-identity test, line 445). -/
structure GoType where
  kind : RKind
  isErrType : Bool
deriving DecidableEq, Repr

/-- `errorType` of `util.go` line 386: the reflect type of the `error`
interface. -/
def errorType : GoType := ⟨RKind.iface, true⟩

/-- The reflect type of a function as far as `checkValidatorFunc`,
`checkFilterFunc` and `goodFunc` inspect it: `NumIn()` and the list of
result types (`NumOut()` is `outs.length`, `Out(i)` is `outs[i]`). -/
structure GoFuncType where
  numIn : Nat
  outs : List GoType
deriving DecidableEq, Repr

/-- A concrete Go runtime value (equivalently, the `reflect.Value` obtained
from it).  `invalid` is the zero `reflect.Value`, i.e. what `reflect.ValueOf`
yields for an absent (`nil` interface) argument.  `nilObject` is the
`NilObject{}` sentinel of `util.go` line 17 (an empty struct).  Slices, maps
and channels carry a nilness flag because `reflect.Value.IsNil` distinguishes
a nil reference from an empty one; a map carries its key list (the only part
the modelled operations read). -/
inductive GoValue where
  | invalid
  | boolV (b : Bool)
  | intV (i : Int)
  | uintV (u : Nat)
  | floatV (q : Rat)
  | complexV (re im : Rat)
  | stringV (s : String)
  | sliceV (xs : List GoValue) (isNil : Bool)
  | arrayV (xs : List GoValue)
  | mapV (keys : List GoValue) (isNil : Bool)
  | chanV (buffered : Nat) (isNil : Bool)
  | ptrV (target : Option GoValue)
  | ifaceV (inner : Option GoValue)
  | funcV (ft : GoFuncType)
  | nilObject

/-- `reflect.Value.Kind()`. -/
def GoValue.kind : GoValue → RKind
  | .invalid => .invalid
  | .boolV _ => .bool
  | .intV _ => .int
  | .uintV _ => .uint
  | .floatV _ => .float
  | .complexV _ _ => .complex
  | .stringV _ => .string
  | .sliceV _ _ => .slice
  | .arrayV _ => .array
  | .mapV _ _ => .map
  | .chanV _ _ => .chan
  | .ptrV _ => .ptr
  | .ifaceV _ => .iface
  | .funcV _ => .func
  | .nilObject => .struct

/-- `reflect.Value.Int()`: the signed value, sign-extended to int64.  Panics
in Go on other kinds; every call site in the modelled code is kind-guarded,
so the default branch is unreachable there. -/
def GoValue.goInt : GoValue → Int
  | .intV i => i
  | _ => 0

/-- `reflect.Value.Uint()`: the unsigned value, widened to uint64.  Kind
guarded at every modelled call site. -/
def GoValue.goUint : GoValue → Nat
  | .uintV u => u
  | _ => 0

/-- `reflect.Value.Bool()`.  Kind-guarded at every modelled call site. -/
def GoValue.goBool : GoValue → Bool
  | .boolV b => b
  | _ => false

/-- `reflect.Value.Float()`.  Kind-guarded at every modelled call site. -/
def GoValue.goFloat : GoValue → Rat
  | .floatV q => q
  | _ => 0

/-- `reflect.Value.Complex()`.  Kind-guarded at every modelled call site. -/
def GoValue.goComplex : GoValue → Rat × Rat
  | .complexV re im => (re, im)
  | _ => (0, 0)

/-- Printable name of a kind, standing in for `Type().String()` in the
`"<T Value>"` text below (the model does not track Go type names). -/
def kindStr : RKind → String
  | .invalid => "invalid"
  | .bool => "bool"
  | .int => "int64"
  | .uint => "uint64"
  | .float => "float64"
  | .complex => "complex128"
  | .string => "string"
  | .slice => "slice"
  | .array => "array"
  | .map => "map"
  | .chan => "chan"
  | .ptr => "ptr"
  | .iface => "interface"
  | .func => "func"
  | .struct => "struct"

/-- `reflect.Value.String()`: the string for kind String, `"<invalid Value>"`
for the zero Value, and `"<T Value>"` otherwise (it is the one accessor that
does not panic on a foreign kind). -/
def GoValue.rvString : GoValue → String
  | .stringV s => s
  | .invalid => "<invalid Value>"
  | v => "<" ++ kindStr v.kind ++ " Value>"

/-- `reflect.ValueOf` applied to an `interface{}` argument: a nil interface
gives the zero `Value`; otherwise the concrete value (the interface wrapper
is forgotten). -/
def reflectValueOf : GoValue → GoValue
  | .ifaceV none => .invalid
  | .ifaceV (some x) => x
  | v => v

/-- `indirectInterface` of `util.go` lines 642-651: unwrap a `reflect.Value`
of kind Interface to its concrete element, the nil interface becoming
`emptyValue` (the zero Value). -/
def indirectInterface : GoValue → GoValue
  | .ifaceV none => .invalid
  | .ifaceV (some x) => x
  | v => v

/-- `reflect.Indirect`: dereference one pointer level; `Elem()` of a nil
pointer is the zero `Value`. -/
def reflectIndirect : GoValue → GoValue
  | .ptrV none => .invalid
  | .ptrV (some x) => x
  | v => v

/-- Go's `uint64(i)` for an int64 `i`: two's-complement reinterpretation. -/
def uint64OfInt (i : Int) : Nat := (i % 2^64).toNat

/-- Go's `int64(u)` for a uint64 `u`: two's-complement reinterpretation. -/
def int64OfUint64 (u : Nat) : Int :=
  if u % 2^64 < 2^63 then ((u % 2^64 : Nat) : Int) else ((u % 2^64 : Nat) : Int) - 2^64

/-- Go's `int64(f)` for a float64 `f`: truncation toward zero. -/
def goTrunc (q : Rat) : Int := if 0 ≤ q then q.floor else q.ceil

/-- `strconv.FormatInt(i, 10)`: the decimal string, with a leading minus sign
for negative values.  `Int.repr` produces exactly this form. -/
def formatInt (i : Int) : String := toString i

/-- Modelled stand-in for `fmt.Sprint` on a float value (`ValueLen`
line 141).  Go's shortest-roundtrip float formatting is not reproduced; this
placeholder renders the rational.  No theorem in this file depends on it. -/
def sprintFloat (q : Rat) : String := toString q

/-- `ValueIsEmpty` of `util.go` lines 102-123: switch on the reflect kind.
String/Array use `Len() == 0` (for a string, `Value.Len` is the byte length);
Map/Slice use `Len() == 0 || IsNil()`; Bool uses `!Bool()`; the numeric
families compare with zero; Interface/Ptr use `IsNil()`; every other kind
falls through to `reflect.DeepEqual` with the zero value of its type. -/
def ValueIsEmpty (v : GoValue) : Bool :=
  match v with
  | .invalid => true
  | .stringV s => s.utf8ByteSize == 0
  | .arrayV xs => xs.length == 0
  | .mapV keys isNil => keys.length == 0 || isNil
  | .sliceV xs isNil => xs.length == 0 || isNil
  | .boolV b => !b
  | .intV i => i == 0
  | .uintV u => u == 0
  | .floatV q => q == 0
  | .ifaceV inner => inner.isNone
  | .ptrV target => target.isNone
  -- fall-through: reflect.DeepEqual(v.Interface(), reflect.Zero(v.Type()).Interface())
  | .complexV re im => re == 0 && im == 0
  | .chanV _ isNil => isNil
  | .funcV _ => false
  | .nilObject => true

/-- `ValueLen` of `util.go` lines 126-146: after one `reflect.Indirect`,
strings yield their rune count, the container kinds their element count, the
unsigned family `len(strconv.FormatInt(int64(v.Uint()), 10))` (note the
two's-complement wrap), the signed family `len(strconv.FormatInt(v.Int(),
10))`, floats `len(fmt.Sprint(...))`, and everything else `-1`. -/
def ValueLen (v0 : GoValue) : Int :=
  match reflectIndirect v0 with
  | .stringV s => (s.length : Int)
  | .mapV keys _ => (keys.length : Int)
  | .arrayV xs => (xs.length : Int)
  | .chanV buffered _ => (buffered : Int)
  | .sliceV xs _ => (xs.length : Int)
  | .uintV u => ((formatInt (int64OfUint64 u)).length : Int)
  | .intV i => ((formatInt i).length : Int)
  | .floatV q => ((sprintFloat q).length : Int)
  | _ => -1

/-- `CalcLength` of `util.go` lines 196-207: `-1` for `nil`, the rune count
for a string (the issue#39 fix), otherwise `ValueLen(reflect.ValueOf(val))`. -/
def CalcLength (val : GoValue) : Int :=
  match val with
  | .invalid => -1
  | .stringV str => (str.length : Int)
  | v => ValueLen (reflectValueOf v)

/-- Modelled from the spec: the collaborator numeric-coercion utility
(`mathutil.ToInt64` / `mathutil.Int64`, §6 "best-effort to-int/to-int64"
conversions), which is not part of the provided source.  It mirrors the
repository's own copy `valueToInt64` (`util.go` lines 152-193, non-strict
mode): decimal strings are parsed after trimming, the signed and unsigned
families widen (uint64 wrapping through int64), floats truncate, and
anything else fails with `ErrConvertFail`. -/
def mathutilInt64 : GoValue → Except GoErr Int
  | .stringV s =>
    match s.trim.toInt? with
    | some i => .ok i
    | none => .error .convertFail
  | .intV i => .ok i
  | .uintV u => .ok (int64OfUint64 u)
  | .floatV q => .ok (goTrunc q)
  | _ => .error .convertFail

/-- Modelled from the spec: the collaborator best-effort to-float conversion
(`mathutil.ToFloat`, §6), not part of the provided source.  Numeric values
convert to their exact rational; strings parse (integer strings only in this
model — decimal-fraction parsing is not exercised by any claim); anything
else fails. -/
def mathutilToFloat : GoValue → Except GoErr Rat
  | .stringV s =>
    match s.trim.toInt? with
    | some i => .ok (i : Rat)
    | none => .error .convertFail
  | .intV i => .ok (i : Rat)
  | .uintV u => .ok (u : Rat)
  | .floatV q => .ok q
  | _ => .error .convertFail

/-- `compareInt64` of `util.go` lines 275-287: the four orderings on int64;
any other op yields `false`. -/
def compareInt64 (srcI64 dstI64 : Int) (op : String) : Bool :=
  match op with
  | "lt" => decide (srcI64 < dstI64)
  | "lte" => decide (srcI64 ≤ dstI64)
  | "gt" => decide (srcI64 > dstI64)
  | "gte" => decide (srcI64 ≥ dstI64)
  | _ => false

/-- `compareFloat64` of `util.go` lines 289-301: the four orderings on
float64 (exact on the rational model used here); any other op yields
`false`. -/
def compareFloat64 (srcF dstF : Rat) (op : String) : Bool :=
  match op with
  | "lt" => decide (srcF < dstF)
  | "lte" => decide (srcF ≤ dstF)
  | "gt" => decide (srcF > dstF)
  | "gte" => decide (srcF ≥ dstF)
  | _ => false

/-- `valueCompare` of `util.go` lines 210-236: if the first operand is a
string, the second must also be one and their `len()` — the UTF-8 byte
count, not the rune count — are compared; otherwise both operands go through
the best-effort int64 conversion, any failure yielding `false`. -/
def valueCompare (srcVal dstVal : GoValue) (op : String) : Bool :=
  match srcVal with
  | .stringV str =>
    match dstVal with
    | .stringV dst => compareInt64 (str.utf8ByteSize : Int) (dst.utf8ByteSize : Int) op
    | _ => false
  | _ =>
    match mathutilInt64 srcVal with
    | .error _ => false
    | .ok srcInt =>
      match mathutilInt64 dstVal with
      | .error _ => false
      | .ok dstInt => compareInt64 srcInt dstInt op

/-- `compareIntFloat` of `util.go` lines 239-272: `false` if either operand
is `nil`; if the FIRST operand is a `float64` or `float32`, the second is
best-effort converted to float and the float comparator runs; otherwise both
operands are best-effort converted to int64 (a float second operand is
truncated) and the integer comparator runs. -/
def compareIntFloat (srcVal dstVal : GoValue) (op : String) : Bool :=
  match srcVal, dstVal with
  | .invalid, _ => false
  | _, .invalid => false
  | .floatV srcFlt, dst =>
    match mathutilToFloat dst with
    | .error _ => false
    | .ok dstFlt => compareFloat64 srcFlt dstFlt op
  | src, dst =>
    match mathutilInt64 src with
    | .error _ => false
    | .ok srcInt =>
      match mathutilInt64 dst with
      | .error _ => false
      | .ok dstInt => compareInt64 srcInt dstInt op

/-- `basicKindV2` of `util.go` lines 492-510: map a reflect kind to the
closed base-kind enum; composite kinds (slice, array, map, …) and the
invalid kind yield `errBadComparisonType`. -/
def basicKindV2 : RKind → Except GoErr BasicKind
  | .bool => .ok .boolKind
  | .int => .ok .intKind
  | .uint => .ok .uintKind
  | .float => .ok .floatKind
  | .complex => .ok .complexKind
  | .string => .ok .stringKind
  | _ => .error .badComparisonType

/-- `eq` of `util.go` lines 513-558: classify both operands after
`indirectInterface`; a classification failure is returned as the error.  On
a kind mismatch only the int/uint pair is special-cased (sign-aware, the
signed side must be non-negative and its two's-complement uint64 image must
equal the unsigned side); every other mismatch yields `false` with no
error.  Matching kinds compare natively. -/
def eq (arg1 arg2 : GoValue) : Except GoErr Bool :=
  let v1 := indirectInterface arg1
  match basicKindV2 v1.kind with
  | .error err => .error err
  | .ok k1 =>
    let v2 := indirectInterface arg2
    match basicKindV2 v2.kind with
    | .error err => .error err
    | .ok k2 =>
      if k1 ≠ k2 then
        if k1 = .intKind ∧ k2 = .uintKind then
          .ok (decide (0 ≤ v1.goInt) && (uint64OfInt v1.goInt == v2.goUint))
        else if k1 = .uintKind ∧ k2 = .intKind then
          .ok (decide (0 ≤ v2.goInt) && (v1.goUint == uint64OfInt v2.goInt))
        else
          .ok false
      else
        .ok (match k1 with
          | .boolKind => v1.goBool == v2.goBool
          | .complexKind => decide (v1.goComplex = v2.goComplex)
          | .floatKind => v1.goFloat == v2.goFloat
          | .intKind => v1.goInt == v2.goInt
          | .stringKind => v1.rvString == v2.rvString
          | .uintKind => v1.goUint == v2.goUint
          | .invalidKind => false)  -- unreachable: basicKindV2 never yields invalidKind

/-- Modelled from the spec: `IsEqual`, defined outside the provided source
(only its call sites in `includeElement` are visible).  §4.6 says membership
equality follows §4.3 `equals`; modelled as `eq` with an error counting as
not-equal.  No claim in this file depends on its exact behaviour. -/
def isEqual (a b : GoValue) : Bool :=
  match eq a b with
  | .ok t => t
  | .error _ => false

/-- `strings.Contains`: substring test.  On valid UTF-8 data a byte-level
match can only occur at rune boundaries, so the rune-level infix test is
equivalent. -/
def strContains (s sub : String) : Bool := decide (sub.toList <:+: s.toList)

/-- `includeElement` of `util.go` lines 561-595.  The order of events in the
source is load-bearing: `listValue.Type().Kind()` runs FIRST (line 564), and
on a `nil` container `reflect.ValueOf(nil)` is the zero `Value`, whose
`Type()` panics — before the `defer`/`recover` of lines 571-576 is
installed, so that panic propagates to the caller (modelled as the
`.error`).  A string container does a substring search on the element's
`Value.String()` form.  From the `defer` on, any panic (e.g. `Value.Len` on
a non-container, or `Value.Index` on a channel) is recovered into
`(false, false)`: a non-empty channel's `Len()` succeeds but `Index(0)`
panics, an empty or nil channel never reaches `Index`. -/
def includeElement (list element : GoValue) : Except GoPanicMsg (Bool × Bool) :=
  let listValue := reflectValueOf list
  let elementValue := reflectValueOf element
  match listValue with
  | .invalid => .error .typeOnZeroValue
  | .stringV s => .ok (true, strContains s elementValue.rvString)
  | .mapV keys _ => .ok (true, keys.any (fun k => isEqual k element))
  | .sliceV xs _ => .ok (true, xs.any (fun x => isEqual x element))
  | .arrayV xs => .ok (true, xs.any (fun x => isEqual x element))
  | .chanV buffered _ => if buffered = 0 then .ok (true, false) else .ok (false, false)
  | _ => .ok (false, false)

/-- `goodName` of `util.go` lines 452-466: non-empty, underscore allowed
anywhere, first character otherwise a letter, later characters letters or
digits.  `unicode.IsLetter`/`IsDigit` are modelled by the ASCII
classifiers; no claim exercises non-ASCII identifiers. -/
def goodName (name : String) : Bool :=
  if name = "" then false
  else name.toList.enum.all fun p =>
    if p.2 = '_' then true
    else if p.1 = 0 then p.2.isAlpha
    else p.2.isAlpha || p.2.isDigit

/-- `goodFunc` of `util.go` lines 440-449: one result, or two results with
the second identically the `error` type. -/
def goodFunc (typ : GoFuncType) : Bool :=
  match typ.outs with
  | [_] => true
  | [_, out1] => out1 == errorType
  | _ => false

/-- `checkValidatorFunc` of `util.go` lines 395-415: panic on a bad name, a
nil or non-func argument, a zero-parameter function, or a return shape other
than exactly one bool; otherwise return the function value. -/
def checkValidatorFunc (name : String) (fn : GoValue) : Except GoPanicMsg GoFuncType :=
  if !goodName name then .error .invalidName
  else
    match fn with
    | .funcV ft =>
      if ft.numIn = 0 then .error .noParams
      else if ft.outs.length ≠ 1 ∨ (ft.outs[0]?.map GoType.kind) ≠ some RKind.bool then
        .error .badReturnType
      else .ok ft
    | _ => .error .notFunc  -- fn == nil or fv.Kind() != reflect.Func

/-- `checkFilterFunc` of `util.go` lines 417-437: panic on a bad name, a nil
or non-func argument, a zero-parameter function, or a return shape rejected
by `goodFunc`; otherwise return the function value. -/
def checkFilterFunc (name : String) (fn : GoValue) : Except GoPanicMsg GoFuncType :=
  if !goodName name then .error .invalidName
  else
    match fn with
    | .funcV ft =>
      if ft.numIn = 0 then .error .noParams
      else if !goodFunc ft then .error .badReturnType
      else .ok ft
    | _ => .error .notFunc

/-- `nilRVal` of `util.go` line 22: the reflected `NilObject{}` sentinel. -/
def nilRVal : GoValue := .nilObject

/-- `CallByValue` of `util.go` lines 31-47.  The value returned models the
argument vector `in` handed to `fv.Call` after sanitization: each argument is
reflected, and any slot whose reflected value has kind Invalid (a nil
argument) is replaced by `nilRVal`.  The results of the call itself are the
registered function's own business and are not modelled. -/
def CallByValue (fv : GoValue) (args : List GoValue) : Except GoPanicMsg (List GoValue) :=
  if fv.kind ≠ RKind.func then .error .notFuncCall
  else .ok (args.map fun v =>
    let rv := reflectValueOf v
    if rv.kind = RKind.invalid then nilRVal else rv)

/-! ### Helper lemmas shared by several claims -/

theorem int64OfUint64_of_lt (u : Nat) (h : u < 2^63) : int64OfUint64 u = (u : Int) := by
  unfold int64OfUint64
  split <;> omega

theorem int64OfUint64_of_ge (u : Nat) (h1 : 2^63 ≤ u) (h2 : u < 2^64) :
    int64OfUint64 u = (u : Int) - 2^64 := by
  unfold int64OfUint64
  split <;> omega

theorem int64OfUint64_negSucc (u : Nat) (h1 : 2^63 ≤ u) (h2 : u < 2^64) :
    int64OfUint64 u = Int.negSucc (2^64 - u - 1) := by
  rw [int64OfUint64_of_ge u h1 h2, Int.negSucc_eq]
  omega

theorem formatInt_ofNat_length (n : Nat) :
    (formatInt (Int.ofNat n)).length = (Nat.toDigits 10 n).length := rfl

theorem formatInt_negSucc_length (n : Nat) :
    (formatInt (Int.negSucc n)).length = (Nat.toDigits 10 (n+1)).length + 1 := by
  have h : formatInt (Int.negSucc n) = "-" ++ Nat.repr (n+1) := rfl
  rw [h, String.length_append]
  have h2 : (Nat.repr (n+1)).length = (Nat.toDigits 10 (n+1)).length := rfl
  have h3 : ("-" : String).length = 1 := rfl
  rw [h2, h3]
  omega

theorem utf8ByteSize_eq_zero_iff (s : String) : s.utf8ByteSize = 0 ↔ s.length = 0 := by
  cases s with
  | mk data =>
    induction data with
    | nil => simp [String.utf8ByteSize, String.utf8ByteSize.go, String.length]
    | cons c cs ih =>
      have hpos := Char.utf8Size_pos c
      simp [String.utf8ByteSize, String.utf8ByteSize.go, String.length] at *
      omega

/-! ### The claims -/

/-- C1: for every signed value `a` (int64 range) and unsigned value `b`,
`eq(a, b)` returns true iff `a` is non-negative and its magnitude equals
`b`, and symmetrically for `eq(b, a)`; in particular a negative signed
operand never compares equal to any unsigned operand. -/
theorem c1_eq_signAware_int_uint (a : Int) (b : Nat)
    (h1 : -2^63 ≤ a) (h2 : a < 2^63) :
    (eq (.intV a) (.uintV b) = .ok true ↔ (0 ≤ a ∧ a.toNat = b)) ∧
    (eq (.uintV b) (.intV a) = .ok true ↔ (0 ≤ a ∧ a.toNat = b)) := by
  have e1 : eq (.intV a) (.uintV b)
      = .ok (decide (0 ≤ a) && (uint64OfInt a == b)) := rfl
  have e2 : eq (.uintV b) (.intV a)
      = .ok (decide (0 ≤ a) && (b == uint64OfInt a)) := rfl
  rw [e1, e2]
  simp only [Except.ok.injEq, Bool.and_eq_true, decide_eq_true_eq, beq_iff_eq, uint64OfInt]
  constructor <;> constructor <;> intro h <;> omega

/-- C1 witness: `eq(5 as int, 5 as uint)` is true in both argument orders. -/
theorem c1_witness :
    eq (.intV 5) (.uintV 5) = .ok true ∧ eq (.uintV 5) (.intV 5) = .ok true := by
  exact ⟨(c1_eq_signAware_int_uint 5 5 (by decide) (by decide)).1.mpr (by decide),
         (c1_eq_signAware_int_uint 5 5 (by decide) (by decide)).2.mpr (by decide)⟩

/-- C2 counterexample: the claim says two strings are compared by their
Unicode code-point counts, but `valueCompare` compares `len()` — the UTF-8
byte counts.  "é" has 1 code point but 2 bytes, "ab" has 2 of each, so the
claimed comparison 1 < 2 is true while the function returns false. -/
theorem c2_counterexample :
    valueCompare (.stringV ("é")) (.stringV ("ab")) ("lt") = false ∧
    ("é" : String).length = 1 ∧ ("ab" : String).length = 2 := by
  exact ⟨by decide, by decide, by decide⟩

/-- C2 (amended): for every pair of string operands and each op in
`{lt, lte, gt, gte}`, `valueCompare` compares the UTF-8 BYTE lengths of the
two strings as integers under the op (not their code-point counts). -/
theorem c2_string_compare_byteLen :
    (∀ s t : String, valueCompare (.stringV s) (.stringV t) ("lt")
      = decide (s.utf8ByteSize < t.utf8ByteSize)) ∧
    (∀ s t : String, valueCompare (.stringV s) (.stringV t) ("lte")
      = decide (s.utf8ByteSize ≤ t.utf8ByteSize)) ∧
    (∀ s t : String, valueCompare (.stringV s) (.stringV t) ("gt")
      = decide (s.utf8ByteSize > t.utf8ByteSize)) ∧
    (∀ s t : String, valueCompare (.stringV s) (.stringV t) ("gte")
      = decide (s.utf8ByteSize ≥ t.utf8ByteSize)) := by
  refine ⟨fun s t => ?_, fun s t => ?_, fun s t => ?_, fun s t => ?_⟩ <;>
    · simp only [valueCompare, compareInt64]
      rw [decide_eq_decide]
      omega

/-- C3 counterexample: with a non-float first operand and a float second
operand the claim demands a float comparison (`1.0 < 1.5` is true), but
`compareIntFloat` takes the integer path, truncating `1.5` to `1`, and
returns false. -/
theorem c3_counterexample :
    compareIntFloat (.intV 1) (.floatV (Rat.divInt 3 2)) ("lt") = false ∧
    compareFloat64 1 (Rat.divInt 3 2) ("lt") = true := by
  exact ⟨by decide, by decide⟩

/-- C3 (amended): `compareIntFloat` selects the float path based only on the
FIRST operand, over every pair of numeric operands (float, signed, or
unsigned).  If the first operand is a float, both operands are compared as
64-bit floats (a signed or unsigned second operand converting to its exact
value); if the first operand is a signed or unsigned integer, both operands
are coerced to int64 — truncating a float second operand toward zero, and
reinterpreting an unsigned operand through the two's-complement int64
wrap — and compared as integers. -/
theorem c3_first_operand_dispatch :
    (∀ p q : Rat, ∀ op, compareIntFloat (.floatV p) (.floatV q) op = compareFloat64 p q op) ∧
    (∀ p : Rat, ∀ i : Int, ∀ op,
      compareIntFloat (.floatV p) (.intV i) op = compareFloat64 p (i : Rat) op) ∧
    (∀ p : Rat, ∀ u : Nat, ∀ op,
      compareIntFloat (.floatV p) (.uintV u) op = compareFloat64 p (u : Rat) op) ∧
    (∀ i : Int, ∀ q : Rat, ∀ op,
      compareIntFloat (.intV i) (.floatV q) op = compareInt64 i (goTrunc q) op) ∧
    (∀ u : Nat, ∀ q : Rat, ∀ op,
      compareIntFloat (.uintV u) (.floatV q) op
        = compareInt64 (int64OfUint64 u) (goTrunc q) op) ∧
    (∀ i j : Int, ∀ op, compareIntFloat (.intV i) (.intV j) op = compareInt64 i j op) ∧
    (∀ i : Int, ∀ u : Nat, ∀ op,
      compareIntFloat (.intV i) (.uintV u) op = compareInt64 i (int64OfUint64 u) op) ∧
    (∀ u : Nat, ∀ i : Int, ∀ op,
      compareIntFloat (.uintV u) (.intV i) op = compareInt64 (int64OfUint64 u) i op) ∧
    (∀ u v : Nat, ∀ op,
      compareIntFloat (.uintV u) (.uintV v) op
        = compareInt64 (int64OfUint64 u) (int64OfUint64 v) op) := by
  exact ⟨fun p q op => rfl, fun p i op => rfl, fun p u op => rfl, fun i q op => rfl,
    fun u q op => rfl, fun i j op => rfl, fun i u op => rfl, fun u i op => rfl,
    fun u v op => rfl⟩

/-- C4 counterexample: the claim says the length of a numeric value is the
number of decimal digits of its base-10 representation, so the maximum
uint64 value (20 digits) should have length 20; `CalcLength` instead
formats it through an int64 wrap and returns 2, the length of "-1". -/
theorem c4_counterexample :
    CalcLength (.uintV 18446744073709551615) = 2 ∧
    (Nat.toDigits 10 18446744073709551615).length = 20 := by
  exact ⟨by decide, by decide⟩

/-- C4 (amended): the length operation returns the Unicode code-point count
for a string, the element count for array/map/slice/channel values, and -1
for nil and shapes without a defined length, as claimed; but for integer
numerics it returns the CHARACTER count of the decimal string the code
formats — a negative signed value includes its minus sign, and an unsigned
value at least 2^63 is first wrapped through int64 (two's complement) and
rendered as a negative number.  (A float's length is the character count of
its default formatting, whose float-to-string rendering is outside this
model.)  For non-negative signed values and unsigned values below 2^63 the
character count coincides with the claimed digit count. -/
theorem c4_calcLength_rules :
    (∀ s : String, CalcLength (.stringV s) = (s.length : Int)) ∧
    (∀ xs, CalcLength (.arrayV xs) = (xs.length : Int)) ∧
    (∀ xs b, CalcLength (.sliceV xs b) = (xs.length : Int)) ∧
    (∀ ks b, CalcLength (.mapV ks b) = (ks.length : Int)) ∧
    (∀ n b, CalcLength (.chanV n b) = (n : Int)) ∧
    (∀ n : Nat, CalcLength (.intV (Int.ofNat n)) = ((Nat.toDigits 10 n).length : Int)) ∧
    (∀ n : Nat, CalcLength (.intV (Int.negSucc n))
      = (((Nat.toDigits 10 (n+1)).length + 1 : Nat) : Int)) ∧
    (∀ u : Nat, u < 2^63 → CalcLength (.uintV u) = ((Nat.toDigits 10 u).length : Int)) ∧
    (∀ u : Nat, 2^63 ≤ u → u < 2^64 →
      CalcLength (.uintV u) = (((Nat.toDigits 10 (2^64 - u)).length + 1 : Nat) : Int)) ∧
    CalcLength .invalid = -1 ∧
    (∀ b, CalcLength (.boolV b) = -1) ∧
    CalcLength (.ptrV none) = -1 := by
  refine ⟨fun s => rfl, fun xs => rfl, fun xs b => rfl, fun ks b => rfl, fun n b => rfl,
    fun n => rfl, fun n => ?_, fun u hu => ?_, fun u h1 h2 => ?_, rfl, fun b => rfl, rfl⟩
  · have e : CalcLength (.intV (Int.negSucc n))
        = ((formatInt (Int.negSucc n)).length : Int) := rfl
    rw [e, formatInt_negSucc_length]
  · have e : CalcLength (.uintV u) = ((formatInt (int64OfUint64 u)).length : Int) := rfl
    rw [e, int64OfUint64_of_lt u hu]
    rfl
  · have e : CalcLength (.uintV u) = ((formatInt (int64OfUint64 u)).length : Int) := rfl
    rw [e, int64OfUint64_negSucc u h1 h2, formatInt_negSucc_length]
    have h3 : 2^64 - u - 1 + 1 = 2^64 - u := by omega
    rw [h3]

/-- C4 witness: the spec's own examples evaluated through the amended
theorem — `length("héllo") = 5` (code points), `length(12345) = 5` for the
unsigned case (digit count below the wrap threshold), `length(nil) = -1`. -/
theorem c4_witness :
    CalcLength (.stringV ("héllo")) = 5 ∧
    CalcLength (.uintV 12345) = 5 ∧
    CalcLength .invalid = -1 := by
  obtain ⟨hs, -, -, -, -, -, -, hulo, -, hnil, -, -⟩ := c4_calcLength_rules
  refine ⟨?_, ?_, hnil⟩
  · rw [hs ("héllo")]; decide
  · rw [hulo 12345 (by decide)]; decide

/-- C5 (code bug): the membership check is meant never to crash the caller,
and from the string check onward a recover does turn every introspection
panic into `(false, false)` — but `listValue.Type().Kind()` runs BEFORE the
recover is installed, so for a nil container `reflect.Value.Type` panics on
the zero Value and the panic propagates.  This theorem evaluates the model
at that failing input; the claim expects `(supported=false, found=false)`
instead. -/
theorem c5_nil_container_panics :
    includeElement .invalid (.intV 1) = .error .typeOnZeroValue := rfl

/-- C10: for every unsigned 64-bit value above 2^63 - 1, the length
computation converts through int64 (two's-complement wrap, yielding the
negative value u - 2^64), and the result is the character count of that
negative decimal string — sign plus the digits of 2^64 - u. -/
theorem c10_uint_wrap_length (u : Nat) (h1 : 2^63 - 1 < u) (h2 : u < 2^64) :
    int64OfUint64 u = (u : Int) - 2^64 ∧
    (u : Int) - 2^64 < 0 ∧
    ValueLen (.uintV u) = ((formatInt ((u : Int) - 2^64)).length : Int) ∧
    ValueLen (.uintV u) = (((Nat.toDigits 10 (2^64 - u)).length + 1 : Nat) : Int) := by
  have hw := int64OfUint64_of_ge u (by omega) h2
  have e : ValueLen (.uintV u) = ((formatInt (int64OfUint64 u)).length : Int) := rfl
  refine ⟨hw, by omega, ?_, ?_⟩
  · rw [e, hw]
  · rw [e, int64OfUint64_negSucc u (by omega) h2, formatInt_negSucc_length]
    have h3 : 2^64 - u - 1 + 1 = 2^64 - u := by omega
    rw [h3]

/-- C10 witness: the maximum uint64 value, whose decimal form has 20 digits,
gets length 2 — the character count of "-1". -/
theorem c10_witness : ValueLen (.uintV 18446744073709551615) = 2 := by
  have h := c10_uint_wrap_length 18446744073709551615 (by decide) (by decide)
  rw [h.2.2.1]
  decide

/-- C6: with a valid name and at least one parameter, registration accepts a
validator function exactly when it returns a single boolean, and a filter
function exactly when it returns one result of any type or two results with
the second being the `error` type; every other return shape is rejected with
the fatal `badReturnType` panic (the model's `.error` is a panic, never a
recoverable error value). -/
theorem c6_registration_return_shapes (name : String) (ft : GoFuncType)
    (hname : goodName name = true) (hin : 1 ≤ ft.numIn) :
    (checkValidatorFunc name (.funcV ft) = .ok ft ↔
      ∃ t, ft.outs = [t] ∧ t.kind = RKind.bool) ∧
    (checkValidatorFunc name (.funcV ft) ≠ .ok ft →
      checkValidatorFunc name (.funcV ft) = .error .badReturnType) ∧
    (checkFilterFunc name (.funcV ft) = .ok ft ↔
      ((∃ t, ft.outs = [t]) ∨ (∃ t, ft.outs = [t, errorType]))) ∧
    (checkFilterFunc name (.funcV ft) ≠ .ok ft →
      checkFilterFunc name (.funcV ft) = .error .badReturnType) := by
  have hn0 : ¬ ft.numIn = 0 := by omega
  have hv : checkValidatorFunc name (.funcV ft)
      = if ft.outs.length ≠ 1 ∨ (ft.outs[0]?.map GoType.kind) ≠ some RKind.bool
        then .error .badReturnType else .ok ft := by
    simp only [checkValidatorFunc, hname, Bool.not_true, Bool.false_eq_true, if_false,
      if_neg hn0]
  have hf : checkFilterFunc name (.funcV ft)
      = if !goodFunc ft then .error .badReturnType else .ok ft := by
    simp only [checkFilterFunc, hname, Bool.not_true, Bool.false_eq_true, if_false,
      if_neg hn0]
  refine ⟨?_, ?_, ?_, ?_⟩
  · rw [hv]
    match houts : ft.outs with
    | [] => simp
    | [t] =>
      by_cases hk : t.kind = RKind.bool
      · simp [hk]
      · simp only [List.length_cons, List.length_nil]
        rw [if_pos (by simpa using fun h => hk h)]
        simp [hk]
    | t :: e :: rest =>
      rw [if_pos (by simp)]
      simp
  · intro h
    rw [hv] at h ⊢
    split at h
    · rw [if_pos (by assumption)]
    · exact absurd rfl h
  · rw [hf]
    match houts : ft.outs with
    | [] => simp [goodFunc, houts]
    | [t] => simp [goodFunc, houts]
    | [t, e] =>
      by_cases he : e = errorType
      · simp [goodFunc, houts, he]
      · simp only [goodFunc, houts]
        rw [if_pos (by simpa using he)]
        simp [he]
    | t :: e :: f :: rest => simp [goodFunc, houts]
  · intro h
    rw [hf] at h ⊢
    split at h
    · rw [if_pos (by assumption)]
    · exact absurd rfl h

/-- C6 witness: a validator returning one bool and a filter returning a
value-and-error pair are both accepted. -/
theorem c6_witness :
    checkValidatorFunc ("myCheck") (.funcV ⟨1, [⟨RKind.bool, false⟩]⟩)
      = .ok ⟨1, [⟨RKind.bool, false⟩]⟩ ∧
    checkFilterFunc ("myFilter") (.funcV ⟨1, [⟨RKind.string, false⟩, errorType]⟩)
      = .ok ⟨1, [⟨RKind.string, false⟩, errorType]⟩ := by
  constructor
  · exact (c6_registration_return_shapes ("myCheck") ⟨1, [⟨RKind.bool, false⟩]⟩
      (by decide) (by decide)).1.mpr ⟨⟨RKind.bool, false⟩, rfl, rfl⟩
  · exact (c6_registration_return_shapes ("myFilter") ⟨1, [⟨RKind.string, false⟩, errorType]⟩
      (by decide) (by decide)).2.2.1.mpr (Or.inr ⟨⟨RKind.string, false⟩, rfl⟩)

/-- C7: when the callee is a function value, `CallByValue` succeeds and the
argument vector actually handed to the call has one slot per supplied
argument, contains no slot of invalid kind, and is the supplied vector with
every argument whose reflected value is invalid (a nil argument) replaced by
the `NilObject` sentinel. -/
theorem c7_callByValue_arg_sanitization (fv : GoValue) (args : List GoValue)
    (hf : fv.kind = RKind.func) :
    ∃ ins, CallByValue fv args = .ok ins ∧ ins.length = args.length ∧
      (∀ v ∈ ins, v.kind ≠ RKind.invalid) ∧
      (∀ k, (hk : k < args.length) → ins[k]? =
        some (if (reflectValueOf (args[k])).kind = RKind.invalid then nilRVal
              else reflectValueOf (args[k]))) := by
  refine ⟨args.map fun v =>
    if (reflectValueOf v).kind = RKind.invalid then nilRVal else reflectValueOf v,
    ?_, by simp, ?_, ?_⟩
  · simp [CallByValue, hf]
  · intro v hv
    simp only [List.mem_map] at hv
    obtain ⟨a, -, rfl⟩ := hv
    by_cases h : (reflectValueOf a).kind = RKind.invalid
    · rw [if_pos h]
      decide
    · rw [if_neg h]
      exact h
  · intro k hk
    simp [List.getElem?_map, List.getElem?_eq_getElem hk]

/-- C7 witness: a nil argument is replaced by the sentinel and no invalid
slot reaches the call. -/
theorem c7_witness :
    ∃ ins, CallByValue (.funcV ⟨1, [⟨RKind.bool, false⟩]⟩) [GoValue.invalid, .intV 3]
      = .ok ins ∧ ∀ v ∈ ins, v.kind ≠ RKind.invalid := by
  obtain ⟨ins, h1, -, h3, -⟩ := c7_callByValue_arg_sanitization
    (.funcV ⟨1, [⟨RKind.bool, false⟩]⟩) [GoValue.invalid, .intV 3] rfl
  exact ⟨ins, h1, h3⟩

/-- C8: when both operands classify to base kinds and the kinds differ in
any way other than the int/uint pair, `eq` returns false with no error;
when the kinds match (bool, complex, float, int, string, uint), `eq`
returns — with no error — exactly the native-equality verdict: `.ok true`
when the values are equal and `.ok false` when they are not; and when
either operand is of a non-comparable kind (a composite shape, rejected by
`basicKindV2`), `eq` returns the `BadComparisonType` error. -/
theorem c8_eq_kind_rules :
    (∀ v1 v2 k1 k2, basicKindV2 (indirectInterface v1).kind = .ok k1 →
      basicKindV2 (indirectInterface v2).kind = .ok k2 → k1 ≠ k2 →
      ¬(k1 = BasicKind.intKind ∧ k2 = BasicKind.uintKind) →
      ¬(k1 = BasicKind.uintKind ∧ k2 = BasicKind.intKind) →
      eq v1 v2 = .ok false) ∧
    (∀ b1 b2, eq (.boolV b1) (.boolV b2) = .ok (decide (b1 = b2))) ∧
    (∀ x1 y1 x2 y2 : Rat, eq (.complexV x1 y1) (.complexV x2 y2)
      = .ok (decide (x1 = x2 ∧ y1 = y2))) ∧
    (∀ p q : Rat, eq (.floatV p) (.floatV q) = .ok (decide (p = q))) ∧
    (∀ i j : Int, eq (.intV i) (.intV j) = .ok (decide (i = j))) ∧
    (∀ s t : String, eq (.stringV s) (.stringV t) = .ok (decide (s = t))) ∧
    (∀ u v : Nat, eq (.uintV u) (.uintV v) = .ok (decide (u = v))) ∧
    (∀ v1 v2, basicKindV2 (indirectInterface v1).kind = .error .badComparisonType →
      eq v1 v2 = .error .badComparisonType) ∧
    (∀ v1 v2 k1, basicKindV2 (indirectInterface v1).kind = .ok k1 →
      basicKindV2 (indirectInterface v2).kind = .error .badComparisonType →
      eq v1 v2 = .error .badComparisonType) := by
  refine ⟨?_, ?_, ?_, ?_, ?_, ?_, ?_, ?_, ?_⟩
  · intro v1 v2 k1 k2 hk1 hk2 hne hni hui
    simp only [eq, hk1, hk2]
    rw [if_pos hne, if_neg hni, if_neg hui]
  · intro b1 b2
    have e : eq (.boolV b1) (.boolV b2) = .ok (b1 == b2) := rfl
    rw [e]
    exact congrArg Except.ok (by cases b1 <;> cases b2 <;> rfl)
  · intro x1 y1 x2 y2
    have e : eq (.complexV x1 y1) (.complexV x2 y2)
        = .ok (decide ((x1, y1) = (x2, y2))) := rfl
    rw [e]
    refine congrArg Except.ok ?_
    rw [decide_eq_decide]
    exact Prod.ext_iff
  · intro p q
    have e : eq (.floatV p) (.floatV q) = .ok (p == q) := rfl
    rw [e]
    by_cases h : p = q
    · subst h; simp
    · simp [h]
  · intro i j
    have e : eq (.intV i) (.intV j) = .ok (i == j) := rfl
    rw [e]
    by_cases h : i = j
    · subst h; simp
    · simp [h]
  · intro s t
    have e : eq (.stringV s) (.stringV t) = .ok (s == t) := rfl
    rw [e]
    by_cases h : s = t
    · subst h; simp
    · simp [h]
  · intro u v
    have e : eq (.uintV u) (.uintV v) = .ok (u == v) := rfl
    rw [e]
    by_cases h : u = v
    · subst h; simp
    · simp [h]
  · intro v1 v2 h1
    simp only [eq, h1]
  · intro v1 v2 k1 hk1 h2
    simp only [eq, hk1, h2]

/-- C8 witness: a bool/string kind mismatch yields false without error, and
a composite (slice) operand yields the `BadComparisonType` error. -/
theorem c8_witness :
    eq (.boolV true) (.stringV ("x")) = .ok false ∧
    eq (.sliceV [] false) (.intV 0) = .error .badComparisonType := by
  constructor
  · exact c8_eq_kind_rules.1 (.boolV true) (.stringV ("x"))
      BasicKind.boolKind BasicKind.stringKind rfl rfl (by decide) (by decide) (by decide)
  · exact c8_eq_kind_rules.2.2.2.2.2.2.2.1 (.sliceV [] false) (.intV 0) rfl

/-- C9: `ValueIsEmpty` follows the per-kind rule of the claim — invalid is
empty; strings and arrays are empty iff their length is 0 (for strings the
byte-length test agrees with the code-point count); maps and slices are
empty iff empty or nil; booleans iff false; the numeric families iff zero;
pointers and interfaces iff nil; and the fall-through shapes (complex,
channel, funcs, structs) iff structurally equal to their zero value. -/
theorem c9_valueIsEmpty_rules :
    ValueIsEmpty .invalid = true ∧
    (∀ s, ValueIsEmpty (.stringV s) = true ↔ s.length = 0) ∧
    (∀ xs, ValueIsEmpty (.arrayV xs) = true ↔ xs.length = 0) ∧
    (∀ ks b, ValueIsEmpty (.mapV ks b) = true ↔ (ks.length = 0 ∨ b = true)) ∧
    (∀ xs b, ValueIsEmpty (.sliceV xs b) = true ↔ (xs.length = 0 ∨ b = true)) ∧
    (∀ b, ValueIsEmpty (.boolV b) = true ↔ b = false) ∧
    (∀ i : Int, ValueIsEmpty (.intV i) = true ↔ i = 0) ∧
    (∀ u : Nat, ValueIsEmpty (.uintV u) = true ↔ u = 0) ∧
    (∀ q : Rat, ValueIsEmpty (.floatV q) = true ↔ q = 0) ∧
    (∀ o, ValueIsEmpty (.ptrV o) = true ↔ o = none) ∧
    (∀ o, ValueIsEmpty (.ifaceV o) = true ↔ o = none) ∧
    (∀ re im : Rat, ValueIsEmpty (.complexV re im) = true ↔ (re = 0 ∧ im = 0)) ∧
    (∀ n b, ValueIsEmpty (.chanV n b) = b) ∧
    (∀ t, ValueIsEmpty (.funcV t) = false) ∧
    ValueIsEmpty .nilObject = true := by
  refine ⟨rfl, ?_, ?_, ?_, ?_, ?_, ?_, ?_, ?_, ?_, ?_, ?_, fun n b => rfl, fun t => rfl, rfl⟩
  · intro s
    simp only [ValueIsEmpty, beq_iff_eq]
    exact utf8ByteSize_eq_zero_iff s
  · intro xs
    simp [ValueIsEmpty]
  · intro ks b
    simp [ValueIsEmpty]
  · intro xs b
    simp [ValueIsEmpty]
  · intro b
    simp [ValueIsEmpty]
  · intro i
    simp [ValueIsEmpty]
  · intro u
    simp [ValueIsEmpty]
  · intro q
    simp [ValueIsEmpty]
  · intro o
    simp [ValueIsEmpty, Option.isNone_iff_eq_none]
  · intro o
    simp [ValueIsEmpty, Option.isNone_iff_eq_none]
  · intro re im
    simp [ValueIsEmpty]

end Validate
